import Mathlib

/-!
Shallow embedding of `h2o-py/h2o/model/model_base.py` (class `ModelBase`),
covering the metric-selection logic, the parameter views, the deviance and
degrees-of-freedom accessors, the `model_id` setter, and the readiness
behaviour of `show`.  Python dictionaries are modelled as insertion-ordered
association lists, Python `None` as `Option.none`, and raised exceptions as
`Except.error` values.
-/

namespace ModelBase

/-- A Python value as it occurs in the parameters snapshot `self.parms`:
either `None`, a string, a number, a boolean, or a nested dict. -/
inductive PyVal where
  | none
  | str (s : String)
  | num (q : ℚ)
  | boolean (b : Bool)
  | dict (entries : List (String × PyVal))

/-- One entry of `self.parms`: the per-parameter record holding
`"default_value"` and `"actual_value"`. -/
structure ParamRecord where
  default_value : PyVal
  actual_value : PyVal

/-- A typed metrics view (an `H2OModelMetrics` object): each named statistic
accessor of the Python metrics object is a field. -/
structure MetricsView where
  r2 : ℚ
  mse : ℚ
  rmse : ℚ
  mae : ℚ
  rmsle : ℚ
  logloss : ℚ
  mean_residual_deviance : ℚ
  auc : ℚ
  aic : ℚ
  gini : ℚ
  residual_deviance : ℚ
  residual_degrees_of_freedom : ℚ
  null_deviance : ℚ
  null_degrees_of_freedom : ℚ
deriving DecidableEq, Repr

/-- The `"output"` sub-document of `self._model_json`: the three per-role
metric blocks, each possibly `None` when the server never computed it. -/
structure ModelOutput where
  training_metrics : Option MetricsView
  validation_metrics : Option MetricsView
  cross_validation_metrics : Option MetricsView
deriving DecidableEq, Repr

/-- The fetched model document `self._model_json` (restricted to the parts
the modelled accessors read). -/
structure ModelDoc where
  output : ModelOutput
deriving DecidableEq, Repr

/-- The in-memory state of a `ModelBase` instance: `self._id`,
`self._model_json`, `self._future`, `self._job` and `self.parms`.
`_job` is `some ()` when a job handle is held. -/
structure ModelState where
  _id : Option String
  _model_json : Option ModelDoc
  _future : Bool
  _job : Option Unit
  parms : List (String × ParamRecord)

/-- Python exceptions raised by the modelled code: `typeError` is the generic
null-reference failure from subscripting `None` (`None["output"]`),
`attributeError` from calling a method on `None`, and `h2oValueError`
is the library's `H2OValueError` carrying its message. -/
inductive PyError where
  | typeError
  | attributeError
  | h2oValueError (msg : String)
deriving DecidableEq, Repr

/-- Externally visible actions performed by a read path: a single
non-blocking job status check (`poll_once`), a blocking poll to completion,
a read of the model document, or a printed message. -/
inductive Event where
  | jobPollOnce
  | jobPoll
  | readDocument
  | printMsg (s : String)
deriving DecidableEq, Repr

/-- Events of the `model_id` setter: the local assignment `self._id = newid`
and the remote `h2o.rapids('(rename ...)')` call. -/
inductive RenameEvent where
  | setLocalId (newid : String)
  | remoteRename (oldid : Option String) (newid : String)
deriving DecidableEq, Repr

/-- `RenameEvent.remoteRename` recogniser. -/
def isRemoteRename : RenameEvent → Bool
  | .remoteRename _ _ => true
  | _ => false

/-- `RenameEvent.setLocalId` recogniser. -/
def isSetLocalId : RenameEvent → Bool
  | .setLocalId _ => true
  | _ => false

/-- The `model_id` setter, as a step trace.  Following the source
(`oldid = self._id; self._id = newid; h2o.rapids('(rename "%s" "%s")' ...)`),
each element pairs the event performed with the local state after that step:
the local assignment happens first, the remote rename call second. -/
def model_id_set_trace (st : ModelState) (newid : String) :
    List (RenameEvent × ModelState) :=
  let oldid := st._id
  let st1 : ModelState := { st with _id := some newid }
  [(.setLocalId newid, st1), (.remoteRename oldid newid, st1)]

/-- `ModelBase.show`, as the list of external events it performs together
with its outcome.  The `_future` branch does a single non-blocking
`self._job.poll_once()` and returns; an absent document or identifier prints
a descriptive message; otherwise the document is read and the model details
are printed (summarised here as the document read followed by the header
message). -/
def show' (st : ModelState) : List Event × Except PyError Unit :=
  if st._future then
    match st._job with
    | Option.none => ([], .error .attributeError)
    | some _ => ([.jobPollOnce], .ok ())
  else
    match st._model_json with
    | Option.none => ([.printMsg "No model trained yet"], .ok ())
    | some _ =>
      match st._id with
      | Option.none => ([.printMsg "This H2OEstimator has been removed."], .ok ())
      | some _ => ([.readDocument, .printMsg "Model Details"], .ok ())

/-- `ModelBase._get_metrics`, instrumented with the external events it
performs.  It reads `o._model_json["output"]` directly (raising the generic
`TypeError` when `_model_json` is `None`) and never touches the job handle;
the result dict is modelled as an insertion-ordered association list. -/
def get_metrics_run (o : ModelState) (train valid xval : Bool) :
    List Event × Except PyError (List (String × Option MetricsView)) :=
  match o._model_json with
  | Option.none => ([.readDocument], .error .typeError)
  | some doc =>
    let output := doc.output
    let metrics : List (String × Option MetricsView) :=
      (if train then [("train", output.training_metrics)] else []) ++
      (if valid then [("valid", output.validation_metrics)] else []) ++
      (if xval then [("xval", output.cross_validation_metrics)] else [])
    let metrics :=
      if metrics.length = 0 then [("train", output.training_metrics)] else metrics
    ([.readDocument], .ok metrics)

/-- `ModelBase._get_metrics`, result only. -/
def get_metrics (o : ModelState) (train valid xval : Bool) :
    Except PyError (List (String × Option MetricsView)) :=
  (get_metrics_run o train valid xval).2

/-- Result of a metric-scalar accessor: either the single value returned
directly (`list(m.values())[0]` when `len(m) == 1`), or the role-to-value
dict. -/
inductive MetricResult where
  | single (v : Option ℚ)
  | mapping (m : List (String × Option ℚ))
deriving DecidableEq, Repr

/-- Shared body of the metric-scalar accessors (`r2`, `mse`, ...): resolve
the metrics dict via `_get_metrics`, map each role to `None` when its block
is absent and to the block's statistic otherwise, and unwrap a singleton
dict to its value. -/
def scalar_accessor (stat : MetricsView → ℚ) (o : ModelState)
    (train valid xval : Bool) : Except PyError MetricResult :=
  match get_metrics o train valid xval with
  | .error e => .error e
  | .ok tm =>
    let m : List (String × Option ℚ) :=
      tm.map (fun kv => (kv.1, kv.2.map stat))
    match m with
    | [kv] => .ok (.single kv.2)
    | _ => .ok (.mapping m)

/-- `ModelBase.r2`. -/
def r2 (o : ModelState) (train valid xval : Bool) : Except PyError MetricResult :=
  scalar_accessor MetricsView.r2 o train valid xval

/-- `ModelBase.mse`. -/
def mse (o : ModelState) (train valid xval : Bool) : Except PyError MetricResult :=
  scalar_accessor MetricsView.mse o train valid xval

/-- `ModelBase.rmse`. -/
def rmse (o : ModelState) (train valid xval : Bool) : Except PyError MetricResult :=
  scalar_accessor MetricsView.rmse o train valid xval

/-- `ModelBase.mae`. -/
def mae (o : ModelState) (train valid xval : Bool) : Except PyError MetricResult :=
  scalar_accessor MetricsView.mae o train valid xval

/-- `ModelBase.rmsle`. -/
def rmsle (o : ModelState) (train valid xval : Bool) : Except PyError MetricResult :=
  scalar_accessor MetricsView.rmsle o train valid xval

/-- `ModelBase.logloss`. -/
def logloss (o : ModelState) (train valid xval : Bool) : Except PyError MetricResult :=
  scalar_accessor MetricsView.logloss o train valid xval

/-- `ModelBase.mean_residual_deviance`. -/
def mean_residual_deviance (o : ModelState) (train valid xval : Bool) :
    Except PyError MetricResult :=
  scalar_accessor MetricsView.mean_residual_deviance o train valid xval

/-- `ModelBase.auc`. -/
def auc (o : ModelState) (train valid xval : Bool) : Except PyError MetricResult :=
  scalar_accessor MetricsView.auc o train valid xval

/-- `ModelBase.aic`. -/
def aic (o : ModelState) (train valid xval : Bool) : Except PyError MetricResult :=
  scalar_accessor MetricsView.aic o train valid xval

/-- `ModelBase.gini`. -/
def gini (o : ModelState) (train valid xval : Bool) : Except PyError MetricResult :=
  scalar_accessor MetricsView.gini o train valid xval

/-- Shared body of the four deviance / degrees-of-freedom accessors,
instrumented with external events.  Faithful to the source: the `xval`
check raises `H2OValueError` first (before any document access); then the
two flag-normalisation statements run; then the selected metric block is
read from the document (raising `TypeError` when the document is absent and
`AttributeError` when the selected block is `None`). -/
def deviance_accessor_run (stat : MetricsView → ℚ) (o : ModelState)
    (train valid xval : Bool) : List Event × Except PyError ℚ :=
  if xval then
    ([], .error (.h2oValueError "Cross-validation metrics are not available."))
  else
    let train := if !train && !valid then true else train
    let train := if train && valid then true else train
    match o._model_json with
    | Option.none => ([.readDocument], .error .typeError)
    | some doc =>
      if train then
        match doc.output.training_metrics with
        | Option.none => ([.readDocument], .error .attributeError)
        | some v => ([.readDocument], .ok (stat v))
      else
        match doc.output.validation_metrics with
        | Option.none => ([.readDocument], .error .attributeError)
        | some v => ([.readDocument], .ok (stat v))

/-- `ModelBase.residual_deviance`. -/
def residual_deviance (o : ModelState) (train valid xval : Bool) :
    List Event × Except PyError ℚ :=
  deviance_accessor_run MetricsView.residual_deviance o train valid xval

/-- `ModelBase.residual_degrees_of_freedom`. -/
def residual_degrees_of_freedom (o : ModelState) (train valid xval : Bool) :
    List Event × Except PyError ℚ :=
  deviance_accessor_run MetricsView.residual_degrees_of_freedom o train valid xval

/-- `ModelBase.null_deviance`. -/
def null_deviance (o : ModelState) (train valid xval : Bool) :
    List Event × Except PyError ℚ :=
  deviance_accessor_run MetricsView.null_deviance o train valid xval

/-- `ModelBase.null_degrees_of_freedom`. -/
def null_degrees_of_freedom (o : ModelState) (train valid xval : Bool) :
    List Event × Except PyError ℚ :=
  deviance_accessor_run MetricsView.null_degrees_of_freedom o train valid xval

/-- One entry of the `params` property view: the `{"default": ..,
"actual": ..}` pair built for each parameter. -/
structure ParamPair where
  default : PyVal
  actual : PyVal

/-- `ModelBase.params`: name to `{default, actual}` pair, from `self.parms`. -/
def params (o : ModelState) : List (String × ParamPair) :=
  o.parms.map (fun kv =>
    (kv.1, { default := kv.2.default_value, actual := kv.2.actual_value }))

/-- `ModelBase.default_params`: name to `default_value`, from `self.parms`. -/
def default_params (o : ModelState) : List (String × PyVal) :=
  o.parms.map (fun kv => (kv.1, kv.2.default_value))

/-- `ModelBase.full_parameters`: returns `self.parms` unchanged. -/
def full_parameters (o : ModelState) : List (String × ParamRecord) :=
  o.parms

/-- The `params_to_select` table of `ModelBase.actual_params`: the four
entity-reference parameter names and the sub-field extracted for each. -/
def params_to_select : List (String × String) :=
  [("model_id", "name"), ("response_column", "column_name"),
   ("training_frame", "name"), ("validation_frame", "name")]

/-- Python's `v.get(field, None)`: dictionary lookup defaulting to `None`;
calling `.get` on a non-dict raises `AttributeError`. -/
def pyGetOrNone (v : PyVal) (field : String) : Except PyError PyVal :=
  match v with
  | .dict entries => .ok ((entries.lookup field).getD .none)
  | _ => .error .attributeError

/-- The per-parameter step of `ModelBase.actual_params`: entity-reference
parameters have the named sub-field extracted from their actual value, all
others yield the actual value unchanged. -/
def unwrap_actual (p : String) (av : PyVal) : Except PyError PyVal :=
  match params_to_select.lookup p with
  | some field => pyGetOrNone av field
  | Option.none => .ok av

/-- The loop of `ModelBase.actual_params` over the parameter snapshot: a
raised exception propagates immediately, otherwise entries are emitted in
order. -/
def actual_params_list : List (String × ParamRecord) →
    Except PyError (List (String × PyVal))
  | [] => .ok []
  | kv :: rest =>
    match unwrap_actual kv.1 kv.2.actual_value with
    | .error e => .error e
    | .ok w =>
      match actual_params_list rest with
      | .error e => .error e
      | .ok m => .ok ((kv.1, w) :: m)

/-- `ModelBase.actual_params`. -/
def actual_params (o : ModelState) : Except PyError (List (String × PyVal)) :=
  actual_params_list o.parms

/-- Result of `ModelBase.model_performance`: a single metrics block taken
from the document, the implicit Python `None` of the unreachable fallthrough,
or the result of the remote metrics-computation path (an external
collaborator call, outside the modelled core). -/
inductive PerfResult where
  | block (b : Option MetricsView)
  | pyNone
  | remote
deriving DecidableEq, Repr

/-- `ModelBase.model_performance`.  With `test_data is None`: default to
`train` when no selector is set, then return the training, validation or
cross-validation block of the document with strict `train`, `valid`, `xval`
priority.  With `test_data` given, the remote path runs (modelled as the
opaque `remote` result). -/
def model_performance (o : ModelState) (test_data : Option Unit)
    (train valid xval : Bool) : Except PyError PerfResult :=
  match test_data with
  | Option.none =>
    let train := if !train && !valid && !xval then true else train
    if train then
      match o._model_json with
      | Option.none => .error .typeError
      | some d => .ok (.block d.output.training_metrics)
    else if valid then
      match o._model_json with
      | Option.none => .error .typeError
      | some d => .ok (.block d.output.validation_metrics)
    else if xval then
      match o._model_json with
      | Option.none => .error .typeError
      | some d => .ok (.block d.output.cross_validation_metrics)
    else .ok .pyNone
  | some _ => .ok .remote

/-- A metrics view whose statistics are all zero except `mse = 1/2`. -/
def scenarioMetrics : MetricsView :=
  { r2 := 0, mse := 1/2, rmse := 0, mae := 0, rmsle := 0, logloss := 0,
    mean_residual_deviance := 0, auc := 0, aic := 0, gini := 0,
    residual_deviance := 0, residual_degrees_of_freedom := 0,
    null_deviance := 0, null_degrees_of_freedom := 0 }

/-- A document with training metrics present (mse = 1/2) and absent
validation and cross-validation metrics. -/
def scenarioDoc : ModelDoc :=
  { output := { training_metrics := some scenarioMetrics,
                validation_metrics := Option.none,
                cross_validation_metrics := Option.none } }

/-- A ready model state holding `scenarioDoc`. -/
def scenarioState : ModelState :=
  { _id := some "model", _model_json := some scenarioDoc, _future := false,
    _job := Option.none, parms := [] }

/-- A model state whose identifier is `"modelA"`, for the rename scenario. -/
def stateModelA : ModelState :=
  { _id := some "modelA", _model_json := Option.none, _future := false,
    _job := Option.none, parms := [] }

/-- A model state with no document and no pending job. -/
def stateNoDoc : ModelState :=
  { _id := some "model", _model_json := Option.none, _future := false,
    _job := Option.none, parms := [] }

/-- A pending model state: job handle outstanding, no document yet. -/
def pendingState : ModelState :=
  { _id := Option.none, _model_json := Option.none, _future := true,
    _job := some (), parms := [] }

/-- A model state with a plain parameter and an entity-reference parameter
whose actual value is the dict `{"name": "X"}`. -/
def paramState : ModelState :=
  { _id := some "model", _model_json := Option.none, _future := false,
    _job := Option.none,
    parms := [("alpha", { default_value := PyVal.num 1, actual_value := PyVal.num 2 }),
              ("training_frame",
               { default_value := PyVal.none,
                 actual_value := PyVal.dict [("name", PyVal.str "X")] })] }

/-- Evaluation of `_get_metrics` on a populated document: the requested
roles in order, or the training singleton when none are requested. -/
theorem get_metrics_eq (o : ModelState) (doc : ModelDoc)
    (h : o._model_json = some doc) (t v x : Bool) :
    get_metrics o t v x = .ok (
      if t || v || x then
        (if t then [("train", doc.output.training_metrics)] else []) ++
        (if v then [("valid", doc.output.validation_metrics)] else []) ++
        (if x then [("xval", doc.output.cross_validation_metrics)] else [])
      else [("train", doc.output.training_metrics)]) := by
  cases t <;> cases v <;> cases x <;>
    simp [get_metrics, get_metrics_run, h]

/-- Looking a key up in a value-mapped association list. -/
theorem lookup_map_snd {β γ : Type} (f : β → γ) (l : List (String × β)) (k : String) :
    (l.map (fun kv => (kv.1, f kv.2))).lookup k = (l.lookup k).map f := by
  induction l with
  | nil => rfl
  | cons kv rest ih =>
    simp only [List.map_cons, List.lookup]
    cases h : k == kv.1 <;> simp [ih]

/-- The `actual_params` loop maps an entity-reference parameter whose actual
value is a dict containing the designated sub-field to that sub-field's
value. -/
theorem actual_params_list_lookup (l : List (String × ParamRecord))
    (m : List (String × PyVal)) (p field : String) (r : ParamRecord)
    (d : List (String × PyVal)) (w : PyVal)
    (hm : actual_params_list l = .ok m)
    (hp : params_to_select.lookup p = some field)
    (hr : l.lookup p = some r)
    (hd : r.actual_value = PyVal.dict d)
    (hw : d.lookup field = some w) :
    m.lookup p = some w := by
  induction l generalizing m with
  | nil => simp [List.lookup] at hr
  | cons kv rest ih =>
    rw [actual_params_list] at hm
    cases hu : unwrap_actual kv.1 kv.2.actual_value with
    | error e => rw [hu] at hm; exact absurd hm (by simp)
    | ok w' =>
      rw [hu] at hm
      cases ht : actual_params_list rest with
      | error e => rw [ht] at hm; exact absurd hm (by simp)
      | ok m' =>
        rw [ht] at hm
        have hm' : m = (kv.1, w') :: m' := by
          cases hm; rfl
        subst hm'
        simp only [List.lookup] at hr ⊢
        cases hk : p == kv.1 with
        | true =>
          have hpk : p = kv.1 := eq_of_beq hk
          have hrk : kv.2 = r := by
            rw [hk] at hr
            simpa using hr
          have hww : unwrap_actual kv.1 kv.2.actual_value = Except.ok w := by
            rw [← hpk, hrk]
            simp [unwrap_actual, hp, hd, pyGetOrNone, hw]
          rw [hu] at hww
          injection hww with hww'
          simp [hww']
        | false =>
          rw [hk] at hr
          exact ih m' ht hr

/-- Claim C1 is false on the code: renaming from `"modelA"` to `"modelB"`,
the first event of the setter is the local mutation and the remote rename
call comes second — not before the mutation — and the local state in effect
at the remote call (hence the state left behind if that call fails) already
carries `"modelB"`, not `"modelA"`. -/
theorem C1_counterexample :
    ((model_id_set_trace stateModelA "modelB").map Prod.fst
        = [RenameEvent.setLocalId "modelB",
           RenameEvent.remoteRename (some "modelA") "modelB"]) ∧
    ¬ (((model_id_set_trace stateModelA "modelB").map Prod.fst).findIdx isRemoteRename
        < ((model_id_set_trace stateModelA "modelB").map Prod.fst).findIdx isSetLocalId) ∧
    ((model_id_set_trace stateModelA "modelB").map (fun step => step.2._id)
        = [some "modelB", some "modelB"]) := by
  refine ⟨rfl, ?_, rfl⟩
  decide

/-- Claim C1 amended: renaming issues exactly one remote rename call, but the
local identifier is mutated before that call (an optimistic rename): the
trace is the local assignment followed by the remote rename, and every state
reached during the setter — in particular the one left behind when the remote
call fails — already carries the new identifier. -/
theorem C1_amended (st : ModelState) (newid : String) :
    (((model_id_set_trace st newid).map Prod.fst).countP isRemoteRename = 1) ∧
    ((model_id_set_trace st newid).map Prod.fst
        = [RenameEvent.setLocalId newid, RenameEvent.remoteRename st._id newid]) ∧
    (∀ step ∈ model_id_set_trace st newid, step.2._id = some newid) := by
  refine ⟨rfl, rfl, ?_⟩
  intro step hstep
  simp only [model_id_set_trace, List.mem_cons, List.not_mem_nil, or_false] at hstep
  rcases hstep with h | h <;> subst h <;> rfl

/-- Claim C4: requesting the cross-validation role from any of the four
deviance / degrees-of-freedom accessors raises `H2OValueError` (the spec's
`UnsupportedOperation`) for every state and every train/valid combination,
with an empty event trace: the error is raised before any document access. -/
theorem C4_xval_raises (o : ModelState) (t v : Bool) :
    residual_deviance o t v true
      = ([], .error (.h2oValueError "Cross-validation metrics are not available.")) ∧
    residual_degrees_of_freedom o t v true
      = ([], .error (.h2oValueError "Cross-validation metrics are not available.")) ∧
    null_deviance o t v true
      = ([], .error (.h2oValueError "Cross-validation metrics are not available.")) ∧
    null_degrees_of_freedom o t v true
      = ([], .error (.h2oValueError "Cross-validation metrics are not available.")) :=
  ⟨rfl, rfl, rfl, rfl⟩

/-- Claim C2: for every populated document and every selector combination,
`_get_metrics` returns a dict whose key set is exactly the set of requested
roles, except that when all three selectors are false the dict is exactly
the single entry binding `"train"` to the document's training metrics. -/
theorem C2_selected_roles (o : ModelState) (doc : ModelDoc)
    (h : o._model_json = some doc) (t v x : Bool) :
    ∃ m, get_metrics o t v x = .ok m ∧ (m.map Prod.fst).Nodup ∧
      (if t || v || x then
        ∀ r : String, r ∈ m.map Prod.fst ↔
          ((r = "train" ∧ t = true) ∨ (r = "valid" ∧ v = true) ∨ (r = "xval" ∧ x = true))
      else m = [("train", doc.output.training_metrics)]) := by
  refine ⟨_, get_metrics_eq o doc h t v x, ?_, ?_⟩ <;>
    cases t <;> cases v <;> cases x <;> simp

/-- Claim C2 witness: on the concrete populated document with both train and
valid requested, the resolved key set is exactly those two roles. -/
theorem C2_witness :
    ∃ m, get_metrics scenarioState true true false = .ok m ∧ (m.map Prod.fst).Nodup ∧
      (if true || true || false then
        ∀ r : String, r ∈ m.map Prod.fst ↔
          ((r = "train" ∧ true = true) ∨ (r = "valid" ∧ true = true) ∨ (r = "xval" ∧ false = true))
      else m = [("train", scenarioDoc.output.training_metrics)]) :=
  C2_selected_roles scenarioState scenarioDoc rfl true true false

/-- Claim C3: with both train and valid requested, each of the four
deviance / degrees-of-freedom accessors returns the training value only
(train wins), while the general metric selection with the same flags
resolves both roles. -/
theorem C3_train_wins (o : ModelState) (doc : ModelDoc) (tm : MetricsView)
    (h : o._model_json = some doc)
    (htm : doc.output.training_metrics = some tm) :
    residual_deviance o true true false
      = ([Event.readDocument], .ok tm.residual_deviance) ∧
    residual_degrees_of_freedom o true true false
      = ([Event.readDocument], .ok tm.residual_degrees_of_freedom) ∧
    null_deviance o true true false
      = ([Event.readDocument], .ok tm.null_deviance) ∧
    null_degrees_of_freedom o true true false
      = ([Event.readDocument], .ok tm.null_degrees_of_freedom) ∧
    (get_metrics o true true false).map (fun m => m.map Prod.fst)
      = .ok ["train", "valid"] := by
  refine ⟨?_, ?_, ?_, ?_, ?_⟩ <;>
    simp [residual_deviance, residual_degrees_of_freedom, null_deviance,
          null_degrees_of_freedom, deviance_accessor_run, h, htm,
          get_metrics_eq o doc h, Except.map]

/-- Claim C3 witness: on the concrete document, `residual_deviance` with both
train and valid requested yields the training block's value. -/
theorem C3_witness :
    residual_deviance scenarioState true true false
      = ([Event.readDocument], Except.ok scenarioMetrics.residual_deviance) :=
  (C3_train_wins scenarioState scenarioDoc scenarioMetrics rfl rfl).1

/-- Claim C5 is false on the code: on a state with no document and no pending
job, a metric accessor (`mse`, via `_get_metrics` subscripting the absent
document) raises the generic null-reference `TypeError`, not a descriptive
"not available" signal. -/
theorem C5_counterexample :
    stateNoDoc._future = false ∧ stateNoDoc._model_json = Option.none ∧
    mse stateNoDoc false false false = Except.error PyError.typeError :=
  ⟨rfl, rfl, rfl⟩

/-- Claim C5 amended: with the document absent and no job pending, the
display read (`show`) fails fast with the descriptive message
"No model trained yet", but the metric reads (`_get_metrics` and the scalar
accessors) raise the generic null-reference `TypeError`. -/
theorem C5_amended (st : ModelState) (hf : st._future = false)
    (hd : st._model_json = Option.none) (t v x : Bool) :
    show' st = ([Event.printMsg "No model trained yet"], .ok ()) ∧
    get_metrics st t v x = .error .typeError ∧
    mse st t v x = .error .typeError := by
  refine ⟨?_, ?_, ?_⟩ <;>
    simp [show', hf, hd, get_metrics, get_metrics_run, mse, scalar_accessor]

/-- Claim C5 witness: the amended statement at the concrete docless state. -/
theorem C5_witness :
    show' stateNoDoc = ([Event.printMsg "No model trained yet"], .ok ()) ∧
    get_metrics stateNoDoc false false false = .error .typeError ∧
    mse stateNoDoc false false false = .error .typeError :=
  C5_amended stateNoDoc rfl rfl false false false

/-- Claim C6 is false on the code: in the pending state the display read does
perform exactly one non-blocking status check and returns without raising,
but a metrics read does not first poll the job to completion — its event
trace contains no blocking poll, only the (failing) document access. -/
theorem C6_counterexample :
    show' pendingState = ([Event.jobPollOnce], Except.ok ()) ∧
    (get_metrics_run pendingState false false false).1 = [Event.readDocument] ∧
    Event.jobPoll ∉ (get_metrics_run pendingState false false false).1 := by
  refine ⟨rfl, rfl, ?_⟩
  decide

/-- Claim C6 amended: in the Pending state (outstanding job handle), a
display-style read performs exactly one non-blocking status check of the job
and returns without raising; a metrics read does not block on the job — it
goes straight to the document access and never issues a poll. -/
theorem C6_amended (st : ModelState) (hf : st._future = true)
    (hj : st._job = some ()) (t v x : Bool) :
    show' st = ([Event.jobPollOnce], Except.ok ()) ∧
    (get_metrics_run st t v x).1 = [Event.readDocument] ∧
    Event.jobPoll ∉ (get_metrics_run st t v x).1 := by
  cases hm : st._model_json <;>
    refine ⟨?_, ?_, ?_⟩ <;>
    cases t <;> cases v <;> cases x <;>
    simp [show', hf, hj, get_metrics_run, hm]

/-- Claim C6 witness: the amended statement at the concrete pending state. -/
theorem C6_witness :
    show' pendingState = ([Event.jobPollOnce], Except.ok ()) ∧
    (get_metrics_run pendingState true false false).1 = [Event.readDocument] ∧
    Event.jobPoll ∉ (get_metrics_run pendingState true false false).1 :=
  C6_amended pendingState rfl rfl true false false

/-- Claim C7: every metric-scalar accessor returns the single role's value
directly (None when that role's metrics block is absent) when exactly one
role resolves, and the role-to-value mapping when several roles resolve;
concretely, on the document with training mse = 1/2 and absent validation
metrics, `mse` with defaults returns 1/2 and `mse` with valid=True returns
None. -/
theorem C7_scalar_accessors (stat : MetricsView → ℚ) (o : ModelState)
    (doc : ModelDoc) (h : o._model_json = some doc) (t v x : Bool) :
    ((t = true ∧ v = false ∧ x = false) →
        scalar_accessor stat o t v x
          = .ok (.single (doc.output.training_metrics.map stat))) ∧
    ((t = false ∧ v = true ∧ x = false) →
        scalar_accessor stat o t v x
          = .ok (.single (doc.output.validation_metrics.map stat))) ∧
    ((t = false ∧ v = false ∧ x = true) →
        scalar_accessor stat o t v x
          = .ok (.single (doc.output.cross_validation_metrics.map stat))) ∧
    ((t = false ∧ v = false ∧ x = false) →
        scalar_accessor stat o t v x
          = .ok (.single (doc.output.training_metrics.map stat))) ∧
    (((t && v) || (t && x) || (v && x)) = true →
        ∃ m, scalar_accessor stat o t v x = .ok (.mapping m) ∧
          2 ≤ m.length ∧
          m.map Prod.fst = (if t then ["train"] else []) ++
            (if v then ["valid"] else []) ++ (if x then ["xval"] else [])) ∧
    mse scenarioState false false false = .ok (.single (some (1/2 : ℚ))) ∧
    mse scenarioState false true false = .ok (.single Option.none) := by
  refine ⟨?_, ?_, ?_, ?_, ?_, rfl, rfl⟩
  · rintro ⟨rfl, rfl, rfl⟩
    simp [scalar_accessor, get_metrics_eq o doc h]
  · rintro ⟨rfl, rfl, rfl⟩
    simp [scalar_accessor, get_metrics_eq o doc h]
  · rintro ⟨rfl, rfl, rfl⟩
    simp [scalar_accessor, get_metrics_eq o doc h]
  · rintro ⟨rfl, rfl, rfl⟩
    simp [scalar_accessor, get_metrics_eq o doc h]
  · intro hyp
    cases t <;> cases v <;> cases x <;> simp at hyp
    · exact ⟨[("valid", doc.output.validation_metrics.map stat),
              ("xval", doc.output.cross_validation_metrics.map stat)],
             by simp [scalar_accessor, get_metrics_eq o doc h], by simp, by simp⟩
    · exact ⟨[("train", doc.output.training_metrics.map stat),
              ("xval", doc.output.cross_validation_metrics.map stat)],
             by simp [scalar_accessor, get_metrics_eq o doc h], by simp, by simp⟩
    · exact ⟨[("train", doc.output.training_metrics.map stat),
              ("valid", doc.output.validation_metrics.map stat)],
             by simp [scalar_accessor, get_metrics_eq o doc h], by simp, by simp⟩
    · exact ⟨[("train", doc.output.training_metrics.map stat),
              ("valid", doc.output.validation_metrics.map stat),
              ("xval", doc.output.cross_validation_metrics.map stat)],
             by simp [scalar_accessor, get_metrics_eq o doc h], by simp, by simp⟩

/-- Claim C7 witness: the defaults-case of the scenario, extracted by
applying the claim theorem at the concrete state. -/
theorem C7_witness :
    mse scenarioState false false false
      = Except.ok (MetricResult.single (some (1/2 : ℚ))) :=
  (C7_scalar_accessors MetricsView.mse scenarioState scenarioDoc rfl
    false false false).2.2.2.2.2.1

/-- Claim C8: for every parameter name present in `full_parameters`, the
record's `default_value` equals the `default_params` entry and its
`actual_value` is the raw (pre-unwrapping) actual value: the `params` view
pairs exactly these two components. -/
theorem C8_full_parameters_roundtrip (o : ModelState) (p : String)
    (r : ParamRecord) (h : (full_parameters o).lookup p = some r) :
    (default_params o).lookup p = some r.default_value ∧
    (params o).lookup p
      = some { default := r.default_value, actual := r.actual_value } := by
  have hd : (default_params o).lookup p
      = (o.parms.lookup p).map (fun rec => rec.default_value) := by
    unfold default_params
    exact lookup_map_snd (fun rec => rec.default_value) o.parms p
  have hp : (params o).lookup p
      = (o.parms.lookup p).map
          (fun rec => ParamPair.mk rec.default_value rec.actual_value) := by
    unfold params
    exact lookup_map_snd (fun rec => ParamPair.mk rec.default_value rec.actual_value)
      o.parms p
  have h' : o.parms.lookup p = some r := h
  rw [hd, hp, h']
  exact ⟨rfl, rfl⟩

/-- Claim C8 witness: the round-trip at a concrete parameter snapshot. -/
theorem C8_witness :
    (default_params paramState).lookup "alpha" = some (PyVal.num 1) ∧
    (params paramState).lookup "alpha"
      = some { default := PyVal.num 1, actual := PyVal.num 2 } :=
  C8_full_parameters_roundtrip paramState "alpha"
    { default_value := PyVal.num 1, actual_value := PyVal.num 2 } rfl

/-- Claim C9: when an entity-reference parameter (one of the four names in
`params_to_select`) has an actual value that is a dict holding the
designated sub-field, `actual_params` maps that parameter to the extracted
sub-field value; in particular `training_frame` with actual value
`{"name": "X"}` is mapped to `"X"`. -/
theorem C9_entity_unwrapping (o : ModelState) (m : List (String × PyVal))
    (p field : String) (r : ParamRecord) (d : List (String × PyVal)) (w : PyVal)
    (hm : actual_params o = .ok m)
    (hp : params_to_select.lookup p = some field)
    (hr : o.parms.lookup p = some r)
    (hd : r.actual_value = PyVal.dict d)
    (hw : d.lookup field = some w) :
    m.lookup p = some w :=
  actual_params_list_lookup o.parms m p field r d w hm hp hr hd hw

/-- Claim C9 witness: on the concrete snapshot, `actual_params` maps
`training_frame` to the extracted string `"X"`. -/
theorem C9_witness :
    ∃ m, actual_params paramState = Except.ok m ∧
      m.lookup "training_frame" = some (PyVal.str "X") :=
  ⟨[("alpha", PyVal.num 2), ("training_frame", PyVal.str "X")], rfl,
   C9_entity_unwrapping paramState
     [("alpha", PyVal.num 2), ("training_frame", PyVal.str "X")]
     "training_frame" "name"
     { default_value := PyVal.none,
       actual_value := PyVal.dict [("name", PyVal.str "X")] }
     [("name", PyVal.str "X")] (PyVal.str "X") rfl rfl rfl rfl rfl⟩

/-- Claim C10: `model_performance` with `test_data` absent returns a single
metrics block (never a role-keyed mapping) with strict train > valid > xval
priority, the training block also being returned when no selector is set —
unlike `_get_metrics`, which with both train and valid requested resolves
both roles. -/
theorem C10_performance_priority (o : ModelState) (doc : ModelDoc)
    (h : o._model_json = some doc) (t v x : Bool) :
    model_performance o Option.none t v x =
      .ok (.block
        (if t || (!t && !v && !x) then doc.output.training_metrics
         else if v then doc.output.validation_metrics
         else doc.output.cross_validation_metrics)) ∧
    (get_metrics o true true false).map (fun m => m.map Prod.fst)
      = .ok ["train", "valid"] := by
  constructor
  · cases t <;> cases v <;> cases x <;> simp [model_performance, h]
  · simp [get_metrics_eq o doc h, Except.map]

/-- Claim C10 witness: on the concrete document, with valid requested and
train unset, the validation block alone is returned. -/
theorem C10_witness :
    model_performance scenarioState Option.none false true false =
      .ok (.block
        (if false || (!false && !true && !false) then
           scenarioDoc.output.training_metrics
         else if true then scenarioDoc.output.validation_metrics
         else scenarioDoc.output.cross_validation_metrics)) ∧
    (get_metrics scenarioState true true false).map (fun m => m.map Prod.fst)
      = .ok ["train", "valid"] :=
  C10_performance_priority scenarioState scenarioDoc rfl false true false

end ModelBase
